import Mathlib

/-!
Verification development for the Replay Job Coordinator and Housekeeping
Retention Engine of the event-monitor repository.

The persisted schema is embedded from the SQL DDL (full schema script);
the dashboard selection / request-building logic is embedded from the
TypeScript screens.  The coordinator and scheduler bodies are not part of
the source tree, so they are modelled from the design specification where
a claim needs them; each such definition carries a doc comment saying so.
-/

namespace EventMonitor

/-! ## Status vocabularies (design doc: replay_jobs.status, replay_items.status) -/

/-- Job status values enumerated by the design doc for `replay_jobs.status`:
RUNNING, COMPLETED, PARTIAL, FAILED.  `partialDone` embeds the value PARTIAL. -/
inductive JobStatus where
  | running
  | completed
  | partialDone
  | failed
deriving DecidableEq, Repr

/-- Item status values enumerated by the design doc for `replay_items.status`:
QUEUED, REPLAYED, FAILED, NOT_FOUND. -/
inductive ItemStatus where
  | queued
  | replayed
  | failed
  | notFound
deriving DecidableEq, Repr

/-- Run status values for `housekeeping_runs.status`: RUNNING, COMPLETED, FAILED. -/
inductive RunStatus where
  | running
  | completed
  | failed
deriving DecidableEq, Repr

/-! ## Audit-store rows, one structure per table of the SQL schema.
DATE and DATETIME columns are embedded as `Nat` instants; NULLable columns
as `Option`. -/

/-- Row of `replay_jobs` (DDL lines 130-146 of the schema script). -/
structure ReplayJobRow where
  id : String
  eventKey : String
  day : Nat
  selectionType : String
  filtersJson : Option String
  snapshotAt : Nat
  requestedBy : Option String
  reason : Option String
  totalRequested : Nat
  status : JobStatus
  succeededCount : Nat
  failedCount : Nat
  queuedCount : Nat
  createdAt : Nat
  completedAt : Option Nat
deriving DecidableEq, Repr

/-- Row of `replay_items` (DDL lines 148-169): per-record unit of work plus
denormalized enrichment captured from the source failure row. -/
structure ReplayItemRow where
  id : Nat
  jobId : String
  recordId : Nat
  eventKey : String
  status : ItemStatus
  attemptCount : Nat
  lastAttemptAt : Option Nat
  lastError : Option String
  emittedId : Option String
  createdAt : Nat
  updatedAt : Option Nat
  traceId : Option String
  messageKey : Option String
  accountNumber : Option String
  exceptionType : Option String
  eventDatetime : Option Nat
  sourcePayload : Option String
deriving DecidableEq, Repr

/-- Row of `housekeeping_runs` (DDL lines 178-194). -/
structure HousekeepingRunRow where
  id : String
  jobType : String
  eventKey : String
  triggerType : String
  status : RunStatus
  cutoffDate : Nat
  runDate : Nat
  attempt : Nat
  startedAt : Nat
  completedAt : Option Nat
  durationMs : Option Nat
  deletedSuccess : Nat
  deletedFailure : Nat
  deletedTotal : Nat
  errorMessage : Option String
deriving DecidableEq, Repr

/-- Row of `housekeeping_run_items` (DDL lines 196-207): composite primary key
(run_id, event_key) and a declared foreign key run_id referencing
housekeeping_runs(id). -/
structure HousekeepingRunItemRow where
  runId : String
  eventKey : String
  deletedSuccess : Nat
  deletedFailure : Nat
  deletedTotal : Nat
  createdAt : Nat
deriving DecidableEq, Repr

/-- Row of `housekeeping_daily` (DDL lines 209-226): primary key
(job_type, event_key, run_date). -/
structure HousekeepingDailyRow where
  jobType : String
  eventKey : String
  runDate : Nat
  retentionDays : Nat
  cutoffDate : Nat
  snapshotAt : Nat
  eligibleSuccess : Nat
  eligibleFailure : Nat
  eligibleTotal : Nat
  lastStatus : RunStatus
  lastRunId : Option String
  lastAttempt : Nat
  lastStartedAt : Option Nat
  lastCompletedAt : Option Nat
  lastError : Option String
deriving DecidableEq, Repr

/-- The Audit Store: the five audit tables of the schema script. -/
structure AuditStore where
  replayJobs : List ReplayJobRow
  replayItems : List ReplayItemRow
  housekeepingRuns : List HousekeepingRunRow
  housekeepingRunItems : List HousekeepingRunItemRow
  housekeepingDaily : List HousekeepingDailyRow
deriving Repr

/-- The empty audit store (fresh database after running the schema script). -/
def emptyStore : AuditStore :=
  { replayJobs := []
    replayItems := []
    housekeepingRuns := []
    housekeepingRunItems := []
    housekeepingDaily := [] }

/-! ## Constraints declared by the DDL.

The schema script declares: primary keys on each table, plain (non-unique)
indexes, and exactly one foreign key, `fk_housekeeping_run_items_run` from
housekeeping_run_items.run_id to housekeeping_runs.id.  In particular the
DDL declares no foreign key on replay_items.job_id (only the plain index
idx_replay_items_job). -/

/-- Primary-key triple of a `housekeeping_daily` row. -/
def dailyKey (r : HousekeepingDailyRow) : String × String × Nat :=
  (r.jobType, r.eventKey, r.runDate)

/-- Primary-key pair of a `housekeeping_run_items` row. -/
def runItemKey (r : HousekeepingRunItemRow) : String × String :=
  (r.runId, r.eventKey)

/-- A store satisfies every constraint the DDL declares: the five primary
keys and the single declared foreign key (housekeeping_run_items.run_id
referencing housekeeping_runs.id). -/
def schemaOk (s : AuditStore) : Bool :=
  (s.replayJobs.map (fun r => r.id)).Nodup &&
  (s.replayItems.map (fun r => r.id)).Nodup &&
  (s.housekeepingRuns.map (fun r => r.id)).Nodup &&
  (s.housekeepingRunItems.map runItemKey).Nodup &&
  (s.housekeepingDaily.map dailyKey).Nodup &&
  s.housekeepingRunItems.all
    (fun it => s.housekeepingRuns.any (fun run => run.id == it.runId))

/-- Referential property on the replay tables: every replay_items row's
job_id matches some replay_jobs row's id.  (Stated separately from
`schemaOk` because the DDL declares no such constraint.) -/
def itemsReferenceJobs (s : AuditStore) : Bool :=
  s.replayItems.all (fun it => s.replayJobs.any (fun job => job.id == it.jobId))

/-- SQL INSERT into `housekeeping_daily` under its primary key: the insert
is refused (`none`) when a row with the same (job_type, event_key,
run_date) already exists. -/
def insertHousekeepingDaily (s : AuditStore) (r : HousekeepingDailyRow) :
    Option AuditStore :=
  if s.housekeepingDaily.any (fun q => dailyKey q = dailyKey r) then
    none
  else
    some { s with housekeepingDaily := s.housekeepingDaily ++ [r] }

/-- SQL UPDATE of the `housekeeping_daily` row with the given primary key:
the row is mutated in place (no row is added or removed).  The update
function is applied only to the matching row. -/
def updateHousekeepingDaily (s : AuditStore) (k : String × String × Nat)
    (f : HousekeepingDailyRow → HousekeepingDailyRow) : AuditStore :=
  { s with housekeepingDaily :=
      s.housekeepingDaily.map (fun q => if dailyKey q = k then f q else q) }

/-! ## Replay Job Coordinator.

The coordinator itself is not in the source tree (only its schema, design
doc and UI callers are), so its operations are modelled from the spec. -/

/-- A row of a per-domain failure table as read through the Event Table
Gateway (the columns the coordinator copies into replay_items enrichment). -/
structure FailureRowSrc where
  id : Nat
  eventDatetime : Nat
  traceId : Option String
  messageKey : Option String
  accountNumber : Option String
  exceptionType : Option String
  sourcePayload : Option String
deriving DecidableEq, Repr

/-- Modelled from the spec: error taxonomy of submitReplay — UnknownEventKey
(no matching failure table) and SelectionTooLarge (IDS selection above the
bound, rejected before any job row is created). -/
inductive ReplayError where
  | unknownEventKey
  | selectionTooLarge
deriving DecidableEq, Repr

/-- Modelled from the spec: per-record response of the external Replay
Endpoint — success with the downstream-assigned emitted id, target not
found, or any other failure with an error message. -/
inductive ReplayOutcome where
  | success (emittedId : String)
  | notFound
  | failure (msg : String)
deriving DecidableEq, Repr

/-- Modelled from the spec: a replay selection is either an explicit id
list (IDS mode) or a filter predicate evaluated against the failure table
(FILTERS mode, with its serialized form kept for filters_json). -/
inductive Selection where
  | ids (ids : List Nat)
  | filters (pred : FailureRowSrc → Bool) (filtersJson : String)

/-- Modelled from the spec: a submitReplay request. -/
structure ReplayRequest where
  eventKey : String
  day : Nat
  selection : Selection
  requestedBy : Option String
  reason : Option String

/-- The client-side and coordinator-side bound on an IDS selection. -/
def maxReplayIds : Nat := 50

/-- Modelled from the spec: selection_type column value per mode. -/
def selectionTypeOf : Selection → String
  | .ids _ => "ids"
  | .filters _ _ => "filters"

/-- Modelled from the spec: filters_json column value per mode. -/
def filtersJsonOf : Selection → Option String
  | .ids _ => none
  | .filters _ j => some j

/-- Modelled from the spec: the coordinator re-validates the IDS bound. -/
def selectionOverBound : Selection → Bool
  | .ids l => maxReplayIds < l.length
  | .filters _ _ => false

/-- Modelled from the spec: candidate materialization — IDS mode reads the
named rows directly from the failure table, FILTERS mode evaluates the
filter against the table as of the snapshot instant. -/
def candidatesOf (table : List FailureRowSrc) : Selection → List FailureRowSrc
  | .ids l => l.filterMap (fun i => table.find? (fun r => r.id == i))
  | .filters p _ => table.filter p

/-- Modelled from the spec: a fresh QUEUED replay_items row with enrichment
fields copied from the source failure row. -/
def mkQueuedItem (itemId : Nat) (jobId eventKey : String) (now : Nat)
    (r : FailureRowSrc) : ReplayItemRow :=
  { id := itemId
    jobId := jobId
    recordId := r.id
    eventKey := eventKey
    status := .queued
    attemptCount := 0
    lastAttemptAt := none
    lastError := none
    emittedId := none
    createdAt := now
    updatedAt := none
    traceId := r.traceId
    messageKey := r.messageKey
    accountNumber := r.accountNumber
    exceptionType := r.exceptionType
    eventDatetime := some r.eventDatetime
    sourcePayload := r.sourcePayload }

/-- Modelled from the spec: applying one Replay Endpoint response to an
item — each attempt increments attempt_count; success sets REPLAYED plus
emitted_id; target-not-found sets NOT_FOUND; any other failure sets FAILED
plus last_error. -/
def applyOutcome (now : Nat) (o : ReplayOutcome) (it : ReplayItemRow) :
    ReplayItemRow :=
  match o with
  | .success e =>
      { it with status := .replayed, emittedId := some e,
                attemptCount := it.attemptCount + 1,
                lastAttemptAt := some now, updatedAt := some now }
  | .notFound =>
      { it with status := .notFound,
                attemptCount := it.attemptCount + 1,
                lastAttemptAt := some now, updatedAt := some now }
  | .failure m =>
      { it with status := .failed, lastError := some m,
                attemptCount := it.attemptCount + 1,
                lastAttemptAt := some now, updatedAt := some now }

/-- Modelled from the spec: build the processed items of a job, one per
candidate in enumeration order, with sequentially assigned item ids; each
item is created QUEUED and then receives the endpoint's per-record
outcome. -/
def buildItems (endpoint : Nat → ReplayOutcome) (now : Nat)
    (jobId eventKey : String) :
    Nat → List FailureRowSrc → List ReplayItemRow
  | _, [] => []
  | nextId, r :: rest =>
      applyOutcome now (endpoint r.id) (mkQueuedItem nextId jobId eventKey now r)
        :: buildItems endpoint now jobId eventKey (nextId + 1) rest

/-- Number of items in the given status. -/
def countStatus : List ReplayItemRow → ItemStatus → Nat
  | [], _ => 0
  | it :: rest, st =>
      (if it.status = st then 1 else 0) + countStatus rest st

/-- succeeded_count recomputed from items: REPLAYED items. -/
def succeededOf (items : List ReplayItemRow) : Nat :=
  countStatus items .replayed

/-- failed_count recomputed from items: FAILED and NOT_FOUND items (the
items that did not succeed and are no longer queued). -/
def failedOf (items : List ReplayItemRow) : Nat :=
  countStatus items .failed + countStatus items .notFound

/-- queued_count recomputed from items: items still QUEUED. -/
def queuedOf (items : List ReplayItemRow) : Nat :=
  countStatus items .queued

/-- Modelled from the spec: final job status — COMPLETED if failedCount==0,
FAILED if succeededCount==0 and failedCount>0, PARTIAL otherwise. -/
def reconcileStatus (succeeded failedCount : Nat) : JobStatus :=
  if failedCount = 0 then .completed
  else if succeeded = 0 then .failed
  else .partialDone

/-- Result of submitReplay: the audit store after the call together with
the synchronous outcome (the finished job row, or a request error). -/
structure SubmitOutput where
  store : AuditStore
  outcome : Except ReplayError ReplayJobRow

/-- Modelled from the spec: submitReplay.  Resolve the failure table for
the event key (UnknownEventKey if none, nothing mutated); re-validate the
IDS bound (SelectionTooLarge before any job row is created); materialize
candidates; an empty candidate set finishes immediately as a COMPLETED
no-op job with zero counts and no items; otherwise create the job and one
item per candidate, drive every item through the Replay Endpoint, and
reconcile counts, status and completed_at from the items. -/
def submitReplay (resolve : String → Option (List FailureRowSrc))
    (endpoint : Nat → ReplayOutcome) (now : Nat) (jobId : String)
    (s : AuditStore) (req : ReplayRequest) : SubmitOutput :=
  match resolve req.eventKey with
  | none => ⟨s, .error .unknownEventKey⟩
  | some table =>
    if selectionOverBound req.selection then ⟨s, .error .selectionTooLarge⟩
    else
      let candidates := candidatesOf table req.selection
      if candidates.isEmpty then
        let job : ReplayJobRow :=
          { id := jobId
            eventKey := req.eventKey
            day := req.day
            selectionType := selectionTypeOf req.selection
            filtersJson := filtersJsonOf req.selection
            snapshotAt := now
            requestedBy := req.requestedBy
            reason := req.reason
            totalRequested := 0
            status := .completed
            succeededCount := 0
            failedCount := 0
            queuedCount := 0
            createdAt := now
            completedAt := some now }
        ⟨{ s with replayJobs := s.replayJobs ++ [job] }, .ok job⟩
      else
        let items :=
          buildItems endpoint now jobId req.eventKey s.replayItems.length candidates
        let job : ReplayJobRow :=
          { id := jobId
            eventKey := req.eventKey
            day := req.day
            selectionType := selectionTypeOf req.selection
            filtersJson := filtersJsonOf req.selection
            snapshotAt := now
            requestedBy := req.requestedBy
            reason := req.reason
            totalRequested := candidates.length
            status := reconcileStatus (succeededOf items) (failedOf items)
            succeededCount := succeededOf items
            failedCount := failedOf items
            queuedCount := queuedOf items
            createdAt := now
            completedAt := some now }
        ⟨{ s with replayJobs := s.replayJobs ++ [job],
                  replayItems := s.replayItems ++ items }, .ok job⟩

/-! ## Housekeeping Retention Engine.

The scheduler body is likewise not in the source tree; its delete step is
modelled from the spec and the design doc's runtime-behavior section. -/

/-- A row of a per-domain success or failure table as the retention job
sees it: only the id and the event day matter to eligibility. -/
structure EventRow where
  id : Nat
  eventDay : Nat
deriving DecidableEq, Repr

/-- The success/failure table pair of one event key, as owned by the Event
Table Gateway. -/
structure EventTables where
  success : List EventRow
  failure : List EventRow
deriving DecidableEq, Repr

/-- Modelled from the spec: a row is eligible for retention deletion when
it is older than the cutoff date. -/
def eligibleRow (cutoffDate : Nat) (r : EventRow) : Bool :=
  r.eventDay < cutoffDate

/-- Modelled from the spec: eligible counts of a scope (the preview /
snapshot numbers). -/
def eligibleCounts (cutoffDate : Nat) (t : EventTables) : Nat × Nat :=
  ((t.success.filter (eligibleRow cutoffDate)).length,
   (t.failure.filter (eligibleRow cutoffDate)).length)

/-- Modelled from the spec: one RETENTION housekeeping run attempt —
delete every eligible row of the scope (batching is an implementation
choice, not a contract, so the batches are modelled as completing), record
the deleted totals, mark the run COMPLETED with no error message. -/
def runRetentionDelete (runId jobType eventKey triggerType : String)
    (cutoffDate runDate attempt startedAt : Nat) (t : EventTables) :
    EventTables × HousekeepingRunRow :=
  let delS := (t.success.filter (eligibleRow cutoffDate)).length
  let delF := (t.failure.filter (eligibleRow cutoffDate)).length
  (⟨t.success.filter (fun r => !eligibleRow cutoffDate r),
    t.failure.filter (fun r => !eligibleRow cutoffDate r)⟩,
   { id := runId
     jobType := jobType
     eventKey := eventKey
     triggerType := triggerType
     status := .completed
     cutoffDate := cutoffDate
     runDate := runDate
     attempt := attempt
     startedAt := startedAt
     completedAt := some startedAt
     durationMs := some 0
     deletedSuccess := delS
     deletedFailure := delF
     deletedTotal := delS + delF
     errorMessage := none })

/-! ## Dashboard logic embedded from the TypeScript screens. -/

/-- HomeScreen constant maxReplaySelection. -/
def maxReplaySelection : Nat := 50

/-- HomeScreen toggleRowSelection, acting on selectedRowIds: a null row id
is ignored; an already-selected id is removed; at or above the cap a new
id is ignored; otherwise the id is appended. -/
def toggleRowSelection (rowId : Option String) (current : List String) :
    List String :=
  match rowId with
  | none => current
  | some rid =>
      if current.contains rid then current.filter (fun i => i ≠ rid)
      else if maxReplaySelection ≤ current.length then current
      else current ++ [rid]

/-- HomeScreen startSelectionPage: selectedRowIds becomes
pageSelectableIds.slice(0, maxReplaySelection). -/
def startSelectionPage (pageSelectableIds : List String) : List String :=
  pageSelectableIds.take maxReplaySelection

/-- HomeScreen handleReplaySelected guard: the replay of the selection is
submitted only when the selection is non-empty and within the cap. -/
def handleReplaySelectedSubmits (selectedRowIds : List String) : Bool :=
  if selectedRowIds.length = 0 ∨ maxReplaySelection < selectedRowIds.length
  then false else true

/-- Body of POST /api/v1/replay as built by HomeScreen confirmReplay in
ids mode; idField and idsField embed the JSON fields id and ids. -/
structure ReplayIdBody where
  mode : String
  eventKey : String
  day : String
  idField : Option Int
  idsField : Option (List Int)
deriving DecidableEq, Repr

/-- Response shape the screen parses from POST /api/v1/replay and
POST /api/v1/replay-jobs. -/
structure ReplayResponse where
  requested : Nat
  failed : Nat
deriving DecidableEq, Repr

/-- HomeScreen confirmReplay, ids branch: mode is ID with the single id
when exactly one finite numeric id is selected, IDS with the list
otherwise; the unused field is null. -/
def buildReplayIdBody (eventKey day : String) (ids : List Int) :
    ReplayIdBody :=
  { mode := if ids.length = 1 then "ID" else "IDS"
    eventKey := eventKey
    day := day
    idField := if ids.length = 1 then ids.head? else none
    idsField := if 1 < ids.length then some ids else none }

/-- HomeScreen confirmReplay, ids branch: the notice built from the parsed
response fields requested and failed. -/
def replayFinishedNotice (r : ReplayResponse) : String :=
  "Replay finished for " ++ toString r.requested ++ " events (failed " ++
    toString r.failed ++ ")."

/-- HomeScreen confirmReplay, ids branch, end to end against an abstract
transport: build the body, post it, and render the notice from the parsed
response. -/
def confirmReplayIds (post : ReplayIdBody → ReplayResponse)
    (eventKey day : String) (ids : List Int) : String :=
  replayFinishedNotice (post (buildReplayIdBody eventKey day ids))

/-- One POST to /api/v1/housekeeping/run as issued by JobAuditScreen:
always a jobType query parameter, optionally an eventKey parameter. -/
structure RunNowPost where
  jobType : String
  eventKeyParam : Option String
deriving DecidableEq, Repr

/-- JobAuditScreen handleRunNow: with jobType RETENTION and no specific
event key selected (empty or ALL) nothing is posted; otherwise exactly one
POST is issued, carrying eventKey only for RETENTION with a specific
selected key. -/
def handleRunNow (jobType selectedEventKey : String) : Option RunNowPost :=
  if jobType = "RETENTION" ∧ (selectedEventKey = "" ∨ selectedEventKey = "ALL")
  then none
  else
    some { jobType := jobType
           eventKeyParam :=
             if jobType = "RETENTION" ∧ selectedEventKey ≠ "" ∧
                 selectedEventKey ≠ "ALL"
             then some selectedEventKey
             else none }

/-! ## Stated invariants -/

/-- The replay-jobs bookkeeping invariant of the spec: every job row in a
terminal (non-RUNNING) status has succeededCount + failedCount +
queuedCount equal to totalRequested, and totalRequested equal to the
number of replay_items rows carrying its id. -/
def jobCountsInvariant (s : AuditStore) : Prop :=
  ∀ job ∈ s.replayJobs, job.status ≠ .running →
    job.succeededCount + job.failedCount + job.queuedCount =
        job.totalRequested ∧
    job.totalRequested =
      (s.replayItems.filter (fun it => it.jobId == job.id)).length

/-! ## Concrete data used by witnesses and counterexamples -/

/-- A gateway that resolves no event key to a failure table. -/
def noTableResolve : String → Option (List FailureRowSrc) := fun _ => none

/-- A gateway that resolves every event key to an empty failure table. -/
def emptyTableResolve : String → Option (List FailureRowSrc) :=
  fun _ => some []

def demoEndpoint : Nat → ReplayOutcome := fun _ => .notFound

def demoRequest : ReplayRequest :=
  { eventKey := "payments.in"
    day := 7
    selection := .ids [101]
    requestedBy := some "ops"
    reason := some "rerun" }

/-- The job row a no-op submitReplay (empty candidate set) produces for
demoRequest at time 3 under job id JOB-W2. -/
def noopJob : ReplayJobRow :=
  { id := "JOB-W2"
    eventKey := "payments.in"
    day := 7
    selectionType := "ids"
    filtersJson := none
    snapshotAt := 3
    requestedBy := some "ops"
    reason := some "rerun"
    totalRequested := 0
    status := .completed
    succeededCount := 0
    failedCount := 0
    queuedCount := 0
    createdAt := 3
    completedAt := some 3 }

/-- Scenario A data: the failure row with id 101. -/
def rowA : FailureRowSrc :=
  { id := 101
    eventDatetime := 3
    traceId := some "T-101"
    messageKey := none
    accountNumber := some "AC-1"
    exceptionType := some "TimeoutException"
    sourcePayload := some "payload-101" }

/-- Scenario A data: the failure row with id 102. -/
def rowB : FailureRowSrc :=
  { id := 102
    eventDatetime := 4
    traceId := some "T-102"
    messageKey := none
    accountNumber := some "AC-2"
    exceptionType := some "MappingException"
    sourcePayload := some "payload-102" }

/-- Scenario A gateway: payments.in resolves to the two-row failure table. -/
def scenResolve : String → Option (List FailureRowSrc) :=
  fun k => if k = "payments.in" then some [rowA, rowB] else none

/-- Scenario A endpoint: record 101 succeeds, every other record errors. -/
def scenEndpoint : Nat → ReplayOutcome :=
  fun rid => if rid = 101 then .success "E-101" else .failure "downstream error"

/-- Scenario A request: IDS mode over ids 101 and 102. -/
def scenRequest : ReplayRequest :=
  { eventKey := "payments.in"
    day := 7
    selection := .ids [101, 102]
    requestedBy := some "ops"
    reason := some "rerun" }

/-- Scenario A run: one success and one error over a fresh store. -/
def scenOut : SubmitOutput :=
  submitReplay scenResolve scenEndpoint 10 "JOB-A" emptyStore scenRequest

def demoDailyRow : HousekeepingDailyRow :=
  { jobType := "RETENTION"
    eventKey := "payments.in"
    runDate := 20
    retentionDays := 7
    cutoffDate := 13
    snapshotAt := 100
    eligibleSuccess := 2
    eligibleFailure := 3
    eligibleTotal := 5
    lastStatus := .completed
    lastRunId := some "R-1"
    lastAttempt := 1
    lastStartedAt := some 100
    lastCompletedAt := some 101
    lastError := none }

def demoDailyStore : AuditStore :=
  { emptyStore with housekeepingDaily := [demoDailyRow] }

/-- A replay_items row whose job_id matches no replay_jobs row. -/
def orphanItem : ReplayItemRow :=
  { id := 1
    jobId := "J-MISSING"
    recordId := 5
    eventKey := "payments.in"
    status := .queued
    attemptCount := 0
    lastAttemptAt := none
    lastError := none
    emittedId := none
    createdAt := 0
    updatedAt := none
    traceId := none
    messageKey := none
    accountNumber := none
    exceptionType := none
    eventDatetime := none
    sourcePayload := none }

/-- A store holding only the orphan item: it satisfies every constraint
the DDL declares yet violates the referential property. -/
def orphanStore : AuditStore :=
  { emptyStore with replayItems := [orphanItem] }

/-! ## Helper lemmas -/

theorem applyOutcome_jobId (now : Nat) (o : ReplayOutcome) (it : ReplayItemRow) :
    (applyOutcome now o it).jobId = it.jobId := by
  cases o <;> rfl

theorem countStatus_partition (items : List ReplayItemRow) :
    succeededOf items + failedOf items + queuedOf items = items.length := by
  induction items with
  | nil => rfl
  | cons it rest ih =>
      simp only [succeededOf, failedOf, queuedOf, countStatus] at *
      cases h : it.status <;> simp [h] <;> omega

theorem buildItems_length (endpoint : Nat → ReplayOutcome) (now : Nat)
    (jobId eventKey : String) (nextId : Nat) (candidates : List FailureRowSrc) :
    (buildItems endpoint now jobId eventKey nextId candidates).length =
      candidates.length := by
  induction candidates generalizing nextId with
  | nil => rfl
  | cons r rest ih => simp [buildItems, ih]

theorem buildItems_jobId (endpoint : Nat → ReplayOutcome) (now : Nat)
    (jobId eventKey : String) (nextId : Nat) (candidates : List FailureRowSrc) :
    ∀ it ∈ buildItems endpoint now jobId eventKey nextId candidates,
      it.jobId = jobId := by
  induction candidates generalizing nextId with
  | nil => intro it h; simp [buildItems] at h
  | cons r rest ih =>
      intro it h
      simp only [buildItems, List.mem_cons] at h
      rcases h with h | h
      · subst h; rw [applyOutcome_jobId]; rfl
      · exact ih _ it h

theorem filter_not_then_filter {α : Type} (p : α → Bool) (l : List α) :
    (l.filter (fun a => !p a)).filter p = [] := by
  induction l with
  | nil => rfl
  | cons a rest ih =>
      by_cases h : p a = true
      · simp [List.filter, h, ih]
      · simp only [Bool.not_eq_true] at h
        simp [List.filter, h, ih]

/-! ## Claim theorems -/

/-- Claim C9: every submitReplay call whose eventKey resolves to no failure
table fails synchronously with UnknownEventKey and leaves the audit store
unchanged — no ReplayJob and no ReplayItem rows are created. -/
theorem submitReplay_unknown_event_key
    (resolve : String → Option (List FailureRowSrc))
    (endpoint : Nat → ReplayOutcome) (now : Nat) (jobId : String)
    (s : AuditStore) (req : ReplayRequest)
    (hres : resolve req.eventKey = none) :
    submitReplay resolve endpoint now jobId s req =
      ⟨s, .error .unknownEventKey⟩ := by
  simp [submitReplay, hres]

theorem submitReplay_unknown_event_key_witness :
    submitReplay noTableResolve demoEndpoint 3 "JOB-W9" emptyStore demoRequest =
      ⟨emptyStore, .error .unknownEventKey⟩ :=
  submitReplay_unknown_event_key noTableResolve demoEndpoint 3 "JOB-W9"
    emptyStore demoRequest rfl

/-- Claim C6: housekeeping delete is idempotent — a second run immediately
after a run that removed every eligible row of the scope reports
deletedTotal = 0 and is not FAILED (it completes with no error message). -/
theorem housekeeping_delete_idempotent
    (runId1 runId2 jobType eventKey triggerType : String)
    (cutoffDate runDate a1 a2 t1 t2 : Nat) (t : EventTables) :
    (runRetentionDelete runId2 jobType eventKey triggerType cutoffDate runDate
        a2 t2
        (runRetentionDelete runId1 jobType eventKey triggerType cutoffDate
            runDate a1 t1 t).1).2.deletedTotal = 0 ∧
    (runRetentionDelete runId2 jobType eventKey triggerType cutoffDate runDate
        a2 t2
        (runRetentionDelete runId1 jobType eventKey triggerType cutoffDate
            runDate a1 t1 t).1).2.status = .completed ∧
    (runRetentionDelete runId2 jobType eventKey triggerType cutoffDate runDate
        a2 t2
        (runRetentionDelete runId1 jobType eventKey triggerType cutoffDate
            runDate a1 t1 t).1).2.errorMessage = none := by
  refine ⟨?_, rfl, rfl⟩
  simp [runRetentionDelete, filter_not_then_filter]

/-- Claim C10: JobAuditScreen handleRunNow issues no POST for RETENTION
with no specific event key (empty or ALL); otherwise it issues exactly one
POST to /api/v1/housekeeping/run, whose query carries an eventKey
parameter exactly when jobType is RETENTION with a specific key selected
(audit job types always post without eventKey). -/
theorem handleRunNow_event_key_param :
    (∀ k, (k = "" ∨ k = "ALL") → handleRunNow "RETENTION" k = none) ∧
    (∀ k, k ≠ "" → k ≠ "ALL" →
        handleRunNow "RETENTION" k = some ⟨"RETENTION", some k⟩) ∧
    (∀ jt k, jt ≠ "RETENTION" → handleRunNow jt k = some ⟨jt, none⟩) := by
  refine ⟨?_, ?_, ?_⟩
  · intro k hk
    simp [handleRunNow, hk]
  · intro k h1 h2
    simp [handleRunNow, h1, h2]
  · intro jt k h
    simp [handleRunNow, h]

theorem handleRunNow_event_key_param_witness :
    handleRunNow "RETENTION" "ALL" = none ∧
    handleRunNow "RETENTION" "payments.in" =
      some ⟨"RETENTION", some "payments.in"⟩ ∧
    handleRunNow "REPLAY_AUDIT" "" = some ⟨"REPLAY_AUDIT", none⟩ :=
  ⟨handleRunNow_event_key_param.1 "ALL" (Or.inr rfl),
   handleRunNow_event_key_param.2.1 "payments.in" (by decide) (by decide),
   handleRunNow_event_key_param.2.2 "REPLAY_AUDIT" "" (by decide)⟩

/-- Claim C8: the id-based replay request posted to POST /api/v1/replay
has mode ID with the single id in the id field for one selected finite
numeric id, mode IDS with the list in the ids field for more than one (the
unused field null), and the notice is rendered from the response parsed as
requested and failed. -/
theorem buildReplayIdBody_mode :
    (∀ eventKey day (ids : List Int), ids.length = 1 →
        (buildReplayIdBody eventKey day ids).mode = "ID" ∧
        (buildReplayIdBody eventKey day ids).idField = ids.head? ∧
        (buildReplayIdBody eventKey day ids).idsField = none) ∧
    (∀ eventKey day (ids : List Int), 1 < ids.length →
        (buildReplayIdBody eventKey day ids).mode = "IDS" ∧
        (buildReplayIdBody eventKey day ids).idsField = some ids ∧
        (buildReplayIdBody eventKey day ids).idField = none) ∧
    (∀ post eventKey day ids, confirmReplayIds post eventKey day ids =
        replayFinishedNotice (post (buildReplayIdBody eventKey day ids))) := by
  refine ⟨?_, ?_, fun _ _ _ _ => rfl⟩
  · intro eventKey day ids h
    simp [buildReplayIdBody, h]
  · intro eventKey day ids h
    have h1 : ids.length ≠ 1 := by omega
    simp [buildReplayIdBody, h, h1]

theorem buildReplayIdBody_mode_witness :
    ((buildReplayIdBody "payments.in" "2024-05-01" [101]).mode = "ID" ∧
      (buildReplayIdBody "payments.in" "2024-05-01" [101]).idField =
        ([101] : List Int).head? ∧
      (buildReplayIdBody "payments.in" "2024-05-01" [101]).idsField = none) ∧
    ((buildReplayIdBody "payments.in" "2024-05-01" [101, 102]).mode = "IDS" ∧
      (buildReplayIdBody "payments.in" "2024-05-01" [101, 102]).idsField =
        some [101, 102] ∧
      (buildReplayIdBody "payments.in" "2024-05-01" [101, 102]).idField = none) :=
  ⟨buildReplayIdBody_mode.1 "payments.in" "2024-05-01" [101] rfl,
   buildReplayIdBody_mode.2.1 "payments.in" "2024-05-01" [101, 102] (by decide)⟩

/-- Claim C3: the IDS-mode replay selection is bounded by 50 — toggling
keeps the selection within the cap (and a new id at the cap is ignored),
select-page takes at most the first 50 selectable ids, and a submission of
a selection above the cap is refused. -/
theorem selection_bounded :
    (∀ current rowId, current.length ≤ maxReplaySelection →
        (toggleRowSelection rowId current).length ≤ maxReplaySelection) ∧
    (∀ current rid, maxReplaySelection ≤ current.length →
        current.contains rid = false →
        toggleRowSelection (some rid) current = current) ∧
    (∀ ids, startSelectionPage ids = ids.take maxReplaySelection ∧
        (startSelectionPage ids).length ≤ maxReplaySelection) ∧
    (∀ sel, maxReplaySelection < sel.length →
        handleReplaySelectedSubmits sel = false) := by
  refine ⟨?_, ?_, ?_, ?_⟩
  · intro current rowId h
    match rowId with
    | none => exact h
    | some rid =>
        simp only [toggleRowSelection]
        by_cases hc : current.contains rid = true
        · rw [if_pos hc]
          exact le_trans (List.length_filter_le _ _) h
        · rw [if_neg hc]
          by_cases hlen : maxReplaySelection ≤ current.length
          · rw [if_pos hlen]; exact h
          · rw [if_neg hlen]
            simp only [List.length_append, List.length_cons, List.length_nil]
            omega
  · intro current rid hlen hc
    simp only [toggleRowSelection]
    rw [if_neg (by simpa using hc), if_pos hlen]
  · intro ids
    refine ⟨rfl, ?_⟩
    simp only [startSelectionPage, List.length_take]
    omega
  · intro sel h
    have h0 : sel.length ≠ 0 := by omega
    simp [handleReplaySelectedSubmits, h0, h]

theorem selection_bounded_witness :
    (toggleRowSelection (some "b") ["a"]).length ≤ maxReplaySelection ∧
    toggleRowSelection (some "x") (List.replicate 50 "a") =
      List.replicate 50 "a" ∧
    handleReplaySelectedSubmits (List.replicate 51 "a") = false :=
  ⟨selection_bounded.1 ["a"] (some "b") (by decide),
   selection_bounded.2.1 (List.replicate 50 "a") "x" (by decide)
     (by decide),
   selection_bounded.2.2.2 (List.replicate 51 "a") (by decide)⟩

theorem filter_key_length_le_one {α β : Type} [DecidableEq β] (key : α → β)
    (l : List α) (h : (l.map key).Nodup) (b : β) :
    (l.filter (fun a => key a = b)).length ≤ 1 := by
  induction l with
  | nil => simp
  | cons a rest ih =>
      simp only [List.map_cons, List.nodup_cons] at h
      simp only [List.filter_cons]
      by_cases hk : key a = b
      · rw [if_pos (by simpa using hk)]
        have hnil : rest.filter (fun x => decide (key x = b)) = [] := by
          rw [List.filter_eq_nil_iff]
          intro x hx
          simp only [decide_eq_true_eq]
          intro hxb
          have hxa : key x = key a := hxb.trans hk.symm
          exact h.1 (hxa ▸ List.mem_map_of_mem key hx)
        simp [hnil]
      · rw [if_neg (by simpa using hk)]
        exact ih h.2

/-- Claim C5: at most one housekeeping_daily row exists per
(jobType, eventKey, runDate) in a store satisfying the schema constraints;
an INSERT for an already-present triple is refused by the primary key; and
an UPDATE of the day row mutates it in place, adding no row. -/
theorem housekeeping_daily_unique
    (s : AuditStore) (r : HousekeepingDailyRow) (k : String × String × Nat)
    (f : HousekeepingDailyRow → HousekeepingDailyRow)
    (hpk : schemaOk s = true) :
    (s.housekeepingDaily.filter (fun q => dailyKey q = k)).length ≤ 1 ∧
    ((∃ q ∈ s.housekeepingDaily, dailyKey q = dailyKey r) →
      insertHousekeepingDaily s r = none) ∧
    (updateHousekeepingDaily s k f).housekeepingDaily.length =
      s.housekeepingDaily.length := by
  refine ⟨?_, ?_, ?_⟩
  · have hnodup : (s.housekeepingDaily.map dailyKey).Nodup := by
      simp only [schemaOk, Bool.and_eq_true, decide_eq_true_eq] at hpk
      tauto
    exact filter_key_length_le_one dailyKey s.housekeepingDaily hnodup k
  · rintro ⟨q, hq, hkey⟩
    simp only [insertHousekeepingDaily]
    rw [if_pos (List.any_eq_true.2 ⟨q, hq, by simpa using hkey⟩)]
  · simp [updateHousekeepingDaily]

theorem housekeeping_daily_unique_witness :
    (demoDailyStore.housekeepingDaily.filter
        (fun q => dailyKey q = ("RETENTION", "payments.in", 20))).length ≤ 1 ∧
    ((∃ q ∈ demoDailyStore.housekeepingDaily,
        dailyKey q = dailyKey demoDailyRow) →
      insertHousekeepingDaily demoDailyStore demoDailyRow = none) ∧
    (updateHousekeepingDaily demoDailyStore ("RETENTION", "payments.in", 20)
        id).housekeepingDaily.length =
      demoDailyStore.housekeepingDaily.length :=
  housekeeping_daily_unique demoDailyStore demoDailyRow
    ("RETENTION", "payments.in", 20) id (by decide)

/-- Claim C4, counterexample: the persisted schema does not enforce the
reference from replay_items.job_id to replay_jobs.id — a store with an
orphan item satisfies all declared constraints (the DDL has only the plain
index idx_replay_items_job there; its one foreign key is on
housekeeping_run_items.run_id). -/
theorem replay_items_fk_not_schema_enforced :
    ¬ (∀ s : AuditStore, schemaOk s = true → itemsReferenceJobs s = true) := by
  intro h
  have h2 := h orphanStore (by decide)
  exact absurd h2 (by decide)

theorem itemsReferenceJobs_extend (jobs : List ReplayJobRow)
    (job : ReplayJobRow) (items newItems : List ReplayItemRow)
    (h : items.all (fun it => jobs.any (fun j => j.id == it.jobId)) = true)
    (hnew : ∀ it ∈ newItems, it.jobId = job.id) :
    (items ++ newItems).all
      (fun it => (jobs ++ [job]).any (fun j => j.id == it.jobId)) = true := by
  rw [List.all_eq_true] at h ⊢
  intro it hit
  rcases List.mem_append.1 hit with hmem | hmem
  · rcases List.any_eq_true.1 (h it hmem) with ⟨j, hj, hjid⟩
    exact List.any_eq_true.2 ⟨j, List.mem_append_left _ hj, hjid⟩
  · refine List.any_eq_true.2
      ⟨job, List.mem_append_right _ (List.mem_singleton_self _), ?_⟩
    rw [hnew it hmem]
    exact beq_self_eq_true _

/-- Claim C4, amended: the reference from every replay_items row's job_id
to an existing replay_jobs row is an application-level invariant of the
coordinator — submitReplay preserves it in every store — while the
persisted schema itself does not enforce it. -/
theorem replay_items_reference_jobs_preserved
    (resolve : String → Option (List FailureRowSrc))
    (endpoint : Nat → ReplayOutcome) (now : Nat) (jobId : String)
    (s : AuditStore) (req : ReplayRequest)
    (h : itemsReferenceJobs s = true) :
    itemsReferenceJobs (submitReplay resolve endpoint now jobId s req).store =
      true := by
  cases hres : resolve req.eventKey with
  | none => simpa [submitReplay, hres] using h
  | some table =>
      by_cases hob : selectionOverBound req.selection = true
      · simpa [submitReplay, hres, hob] using h
      · by_cases hemp : (candidatesOf table req.selection).isEmpty = true
        · simp only [submitReplay, hres, hob, if_false, hemp, if_true,
            Bool.false_eq_true, itemsReferenceJobs] at h ⊢
          rw [List.all_eq_true] at h ⊢
          intro it hit
          rcases List.any_eq_true.1 (h it hit) with ⟨j, hj, hjid⟩
          exact List.any_eq_true.2 ⟨j, List.mem_append_left _ hj, hjid⟩
        · simp only [submitReplay, hres, hob, if_false, hemp,
            Bool.false_eq_true, itemsReferenceJobs] at h ⊢
          exact itemsReferenceJobs_extend s.replayJobs _ s.replayItems _ h
            (fun it hit => buildItems_jobId _ _ _ _ _ _ it hit)

theorem replay_items_reference_jobs_preserved_witness :
    itemsReferenceJobs
      (submitReplay noTableResolve demoEndpoint 3 "JOB-W4" emptyStore
        demoRequest).store = true :=
  replay_items_reference_jobs_preserved noTableResolve demoEndpoint 3 "JOB-W4"
    emptyStore demoRequest (by decide)

/-- Claim C7: a submitReplay call whose candidate set is empty finishes
immediately with a COMPLETED job with totalRequested 0 and zero
succeeded/failed/queued counts, creates no ReplayItem rows, and reports
the no-op as a success rather than an error. -/
theorem submitReplay_empty_candidates
    (resolve : String → Option (List FailureRowSrc))
    (endpoint : Nat → ReplayOutcome) (now : Nat) (jobId : String)
    (s : AuditStore) (req : ReplayRequest) (table : List FailureRowSrc)
    (hres : resolve req.eventKey = some table)
    (hbound : selectionOverBound req.selection = false)
    (hempty : candidatesOf table req.selection = []) :
    ∃ job : ReplayJobRow,
      (submitReplay resolve endpoint now jobId s req).outcome = .ok job ∧
      job.status = .completed ∧ job.totalRequested = 0 ∧
      job.succeededCount = 0 ∧ job.failedCount = 0 ∧ job.queuedCount = 0 ∧
      (submitReplay resolve endpoint now jobId s req).store.replayItems =
        s.replayItems ∧
      (submitReplay resolve endpoint now jobId s req).store.replayJobs =
        s.replayJobs ++ [job] := by
  have hob : ¬ selectionOverBound req.selection = true := by simp [hbound]
  have hemp : (candidatesOf table req.selection).isEmpty = true := by
    rw [hempty]; rfl
  simp only [submitReplay, hres, hob, if_false, hemp, if_true,
    Bool.false_eq_true]
  exact Exists.intro
    { id := jobId
      eventKey := req.eventKey
      day := req.day
      selectionType := selectionTypeOf req.selection
      filtersJson := filtersJsonOf req.selection
      snapshotAt := now
      requestedBy := req.requestedBy
      reason := req.reason
      totalRequested := 0
      status := .completed
      succeededCount := 0
      failedCount := 0
      queuedCount := 0
      createdAt := now
      completedAt := some now }
    ⟨rfl, rfl, rfl, rfl, rfl, rfl, trivial, rfl⟩

theorem submitReplay_empty_candidates_witness :
    ∃ job : ReplayJobRow,
      (submitReplay emptyTableResolve demoEndpoint 3 "JOB-W7" emptyStore
          demoRequest).outcome = .ok job ∧
      job.status = .completed ∧ job.totalRequested = 0 ∧
      job.succeededCount = 0 ∧ job.failedCount = 0 ∧ job.queuedCount = 0 ∧
      (submitReplay emptyTableResolve demoEndpoint 3 "JOB-W7" emptyStore
          demoRequest).store.replayItems = emptyStore.replayItems ∧
      (submitReplay emptyTableResolve demoEndpoint 3 "JOB-W7" emptyStore
          demoRequest).store.replayJobs = emptyStore.replayJobs ++ [job] :=
  submitReplay_empty_candidates emptyTableResolve demoEndpoint 3 "JOB-W7"
    emptyStore demoRequest [] rfl rfl rfl

theorem reconcileStatus_spec (s f : Nat) :
    (f = 0 → reconcileStatus s f = .completed) ∧
    (s = 0 → 0 < f → reconcileStatus s f = .failed) ∧
    (s ≠ 0 → f ≠ 0 → reconcileStatus s f = .partialDone) := by
  refine ⟨fun h => by simp [reconcileStatus, h], ?_, ?_⟩
  · intro hs hf
    have hf0 : f ≠ 0 := by omega
    simp [reconcileStatus, hf0, hs]
  · intro hs hf
    simp [reconcileStatus, hf, hs]

/-- Claim C2: reconciliation sets job status COMPLETED when failedCount is
0, FAILED when succeededCount is 0 and failedCount positive, PARTIAL
otherwise, and sets completedAt; in Scenario A (ids 101 and 102 with 101
succeeding and 102 erroring) the job ends PARTIAL with one success and one
failure, item 101 REPLAYED and item 102 FAILED with lastError set. -/
theorem replay_reconciliation :
    (∀ (resolve : String → Option (List FailureRowSrc))
        (endpoint : Nat → ReplayOutcome) (now : Nat) (jobId : String)
        (s : AuditStore) (req : ReplayRequest) (job : ReplayJobRow),
        (submitReplay resolve endpoint now jobId s req).outcome = .ok job →
          job.completedAt = some now ∧
          (job.failedCount = 0 → job.status = .completed) ∧
          (job.succeededCount = 0 → 0 < job.failedCount →
            job.status = .failed) ∧
          (job.succeededCount ≠ 0 → job.failedCount ≠ 0 →
            job.status = .partialDone)) ∧
    scenOut.outcome.toOption.map
        (fun j => (j.status, j.succeededCount, j.failedCount)) =
      some (.partialDone, 1, 1) ∧
    scenOut.store.replayItems.map
        (fun it => (it.recordId, it.status, it.lastError)) =
      [(101, .replayed, none), (102, .failed, some "downstream error")] := by
  refine ⟨?_, by decide, by decide⟩
  intro resolve endpoint now jobId s req job hok
  cases hres : resolve req.eventKey with
  | none => simp [submitReplay, hres] at hok
  | some table =>
      by_cases hob : selectionOverBound req.selection = true
      · simp [submitReplay, hres, hob] at hok
      · by_cases hemp : (candidatesOf table req.selection).isEmpty = true
        · simp only [submitReplay, hres, hob, if_false, hemp, if_true,
            Bool.false_eq_true, Except.ok.injEq] at hok
          subst hok
          refine ⟨rfl, fun _ => rfl, ?_, ?_⟩
          · intro hs hf
            exact absurd hf (by simp)
          · intro hs hf
            exact absurd rfl hf
        · simp only [submitReplay, hres, hob, if_false, hemp,
            Bool.false_eq_true, Except.ok.injEq] at hok
          subst hok
          exact ⟨rfl, fun hf => (reconcileStatus_spec _ _).1 hf,
            fun hs hf => (reconcileStatus_spec _ _).2.1 hs hf,
            fun hs hf => (reconcileStatus_spec _ _).2.2 hs hf⟩

theorem replay_reconciliation_witness :
    noopJob.completedAt = some 3 ∧
    (noopJob.failedCount = 0 → noopJob.status = .completed) ∧
    (noopJob.succeededCount = 0 → 0 < noopJob.failedCount →
      noopJob.status = .failed) ∧
    (noopJob.succeededCount ≠ 0 → noopJob.failedCount ≠ 0 →
      noopJob.status = .partialDone) :=
  replay_reconciliation.1 emptyTableResolve demoEndpoint 3 "JOB-W2"
    emptyStore demoRequest noopJob rfl

/-- Claim C1: submitReplay preserves the bookkeeping invariant that every
job row in a terminal (non-RUNNING) status has succeededCount +
failedCount + queuedCount equal to totalRequested, with totalRequested
equal to the number of replay_items rows carrying the job's id — and
establishes it for the job it creates, given a fresh job id. -/
theorem replay_job_counts
    (resolve : String → Option (List FailureRowSrc))
    (endpoint : Nat → ReplayOutcome) (now : Nat) (jobId : String)
    (s : AuditStore) (req : ReplayRequest)
    (hinv : jobCountsInvariant s)
    (hjobs : ∀ j ∈ s.replayJobs, j.id ≠ jobId)
    (hitems : ∀ it ∈ s.replayItems, it.jobId ≠ jobId) :
    jobCountsInvariant (submitReplay resolve endpoint now jobId s req).store := by
  cases hres : resolve req.eventKey with
  | none => simpa [submitReplay, hres] using hinv
  | some table =>
      by_cases hob : selectionOverBound req.selection = true
      · simpa [submitReplay, hres, hob] using hinv
      · by_cases hemp : (candidatesOf table req.selection).isEmpty = true
        · simp only [submitReplay, hres, hob, if_false, hemp, if_true,
            Bool.false_eq_true, jobCountsInvariant]
          intro job hmem hstat
          rcases List.mem_append.1 hmem with hm | hm
          · exact hinv job hm hstat
          · rcases List.mem_singleton.1 hm with rfl
            refine ⟨rfl, ?_⟩
            symm
            rw [List.length_eq_zero, List.filter_eq_nil_iff]
            intro it hit
            simp only [beq_iff_eq]
            exact hitems it hit
        · simp only [submitReplay, hres, hob, if_false, hemp,
            Bool.false_eq_true, jobCountsInvariant]
          intro job hmem hstat
          rcases List.mem_append.1 hmem with hm | hm
          · obtain ⟨hsum, hcount⟩ := hinv job hm hstat
            refine ⟨hsum, ?_⟩
            rw [List.filter_append, List.length_append]
            have hzero : ((buildItems endpoint now jobId req.eventKey
                s.replayItems.length
                  (candidatesOf table req.selection)).filter
                  (fun it => it.jobId == job.id)).length = 0 := by
              rw [List.length_eq_zero, List.filter_eq_nil_iff]
              intro it hit
              simp only [beq_iff_eq]
              rw [buildItems_jobId _ _ _ _ _ _ it hit]
              exact fun hcontra => hjobs job hm hcontra.symm
            rw [hzero, Nat.add_zero]
            exact hcount
          · rcases List.mem_singleton.1 hm with rfl
            constructor
            · exact (countStatus_partition _).trans
                (buildItems_length _ _ _ _ _ _)
            · rw [List.filter_append, List.length_append]
              have hold : (s.replayItems.filter
                  (fun it => it.jobId == jobId)).length = 0 := by
                rw [List.length_eq_zero, List.filter_eq_nil_iff]
                intro it hit
                simp only [beq_iff_eq]
                exact hitems it hit
              have hall : (buildItems endpoint now jobId req.eventKey
                  s.replayItems.length
                    (candidatesOf table req.selection)).filter
                  (fun it => it.jobId == jobId) =
                  buildItems endpoint now jobId req.eventKey
                    s.replayItems.length
                    (candidatesOf table req.selection) := by
                rw [List.filter_eq_self]
                intro it hit
                simp only [beq_iff_eq]
                exact buildItems_jobId _ _ _ _ _ _ it hit
              rw [hold, hall, buildItems_length, Nat.zero_add]

theorem replay_job_counts_witness :
    jobCountsInvariant
      (submitReplay scenResolve scenEndpoint 10 "JOB-A" emptyStore
        scenRequest).store :=
  replay_job_counts scenResolve scenEndpoint 10 "JOB-A" emptyStore scenRequest
    (by intro job hmem hstat; simp [emptyStore] at hmem)
    (by intro j hj; simp [emptyStore] at hj)
    (by intro it hit; simp [emptyStore] at hit)

end EventMonitor
